import Mathlib

/-!
Shallow embedding of the risk-scoring engine of the android_sandbox-security
repository and proofs of the specification claims about it.

Sources embedded here:
* `ThreatScoringEngine.kt` — the primary risk aggregator (`analyzeAppRisk`
  and its helpers `inferAppCategory`, `isPermissionContextuallyAppropriate`,
  `detectSuspiciousCombos`, the per-permission scoring loop and the
  installation / build / platform / runtime signal blocks).
* `NetworkAnalyzer` (src/unnamed/part_004) — the sibling network-risk
  analyzer (`analyzeApp`, `buildNetworkCapabilityList`).
* The JS api service (src/unnamed/part_003) — the batch aggregator
  `getRecentFiles` with its per-app error recovery.

Modelling conventions:
* Kotlin `String` becomes Lean `String`; `contains`, `startsWith`,
  `lowercase`, `substringAfterLast` are re-implemented over `List Char`
  so every definition is executable and kernel-reducible.
* The Android `PackageManager` lookups that `analyzeAppRisk` performs are
  out of scope per the spec (black-box AppMetadataProvider); their results
  are the fields of the input record `AppMetadata`.  A failed `appInfo` /
  `packageInfo` lookup in the source yields the same defaulted fields
  (empty permissions, `false` flags, `0` timestamps), which correspond to
  the default field values of `AppMetadata`.
* `System.currentTimeMillis()` is read twice by the source: once for the
  freshness check (line 300, parameter `now`) and once for the `scannedAt`
  field of the result map (line 448, parameter `scanTime`).  Both reads
  are explicit parameters of the embedded `analyzeAppRisk`.
* Kotlin `Int`/`Long` become `Int` (no arithmetic here can overflow 64
  bits); scores, which are sums of non-negative literal weights, become
  `Nat`; Kotlin `Double` (the confidence value) becomes `ℚ` — all the
  arithmetic performed on it is exact at these magnitudes.
* The permission set (`requestedPermissions?.toSet()`) is modelled as the
  list of its elements; every score below is order-independent, so any
  enumeration order of the Kotlin set yields the same result.
* Presentation-only fields of the source result map that require file
  system access (`fileSize`) or Java `hashCode` (`hash`) are omitted from
  the embedded result record; no claim mentions them.
-/

/-- Kotlin `receiver.contains(pattern)` on `List Char`. -/
def charsContains (needle : List Char) : List Char → Bool
  | [] => needle.isEmpty
  | c :: rest => needle.isPrefixOf (c :: rest) || charsContains needle rest

/-- Kotlin `s.contains(pattern)` (substring containment). -/
def strContains (s pattern : String) : Bool :=
  charsContains pattern.toList s.toList

/-- Kotlin `s.startsWith(p)`. -/
def strStartsWith (s p : String) : Bool :=
  p.toList.isPrefixOf s.toList

/-- Kotlin `s.lowercase()` (ASCII range; all keywords matched are ASCII). -/
def toLowerStr (s : String) : String :=
  String.mk (s.toList.map Char.toLower)

/-- Kotlin `s.substringAfterLast(".")`: the part after the last delimiter,
or the whole string when the delimiter is absent. -/
def substringAfterLast (delim : Char) (s : String) : String :=
  String.mk ((s.toList.reverse.takeWhile (fun c => c ≠ delim)).reverse)

/-- High-risk permissions: 10 points each (ThreatScoringEngine companion). -/
def HIGH_RISK_PERMISSIONS : List String :=
  [ "android.permission.CAMERA"
  , "android.permission.RECORD_AUDIO"
  , "android.permission.ACCESS_FINE_LOCATION"
  , "android.permission.ACCESS_COARSE_LOCATION"
  , "android.permission.READ_CONTACTS"
  , "android.permission.WRITE_CONTACTS"
  , "android.permission.READ_SMS"
  , "android.permission.SEND_SMS"
  , "android.permission.READ_CALL_LOG"
  , "android.permission.PROCESS_OUTGOING_CALLS" ]

/-- Medium-risk permissions: 4 points each (ThreatScoringEngine companion). -/
def MEDIUM_RISK_PERMISSIONS : List String :=
  [ "android.permission.READ_EXTERNAL_STORAGE"
  , "android.permission.WRITE_EXTERNAL_STORAGE"
  , "android.permission.INTERNET"
  , "android.permission.ACCESS_NETWORK_STATE"
  , "android.permission.READ_PHONE_STATE"
  , "android.permission.BLUETOOTH" ]

def PERM_ACCESSIBILITY : String := "android.permission.BIND_ACCESSIBILITY_SERVICE"

def PERM_OVERLAY : String := "android.permission.SYSTEM_ALERT_WINDOW"

def PERM_BOOT : String := "android.permission.RECEIVE_BOOT_COMPLETED"

def PERM_INTERNET : String := "android.permission.INTERNET"

def CAMERA_APPS : List String :=
  ["camera", "photo", "video", "scanner", "qr", "barcode"]

def MESSAGING_APPS : List String :=
  ["message", "sms", "chat", "whatsapp", "telegram", "messenger", "signal"]

def SOCIAL_APPS : List String :=
  ["social", "facebook", "instagram", "twitter", "tiktok", "snapchat"]

def CALL_APPS : List String :=
  ["phone", "dialer", "call", "zoom", "meet", "teams", "skype"]

def LOCATION_APPS : List String :=
  ["map", "navigation", "gps", "uber", "lyft", "delivery", "weather"]

/-- Trusted package name beginnings (ThreatScoringEngine companion). -/
def TRUSTED_PREFIXES : List String :=
  ["com.google.", "com.android.", "com.samsung.", "com.sec.", "com.miui.", "com.huawei."]

/-- `RiskFactor` data class: explainability record. -/
structure RiskFactor where
  category : String
  description : String
  points : Nat
deriving Repr, DecidableEq

/-- The facts `analyzeAppRisk` reads about one installed app (via the
black-box PackageManager in the source; lines 248-307). -/
structure AppMetadata where
  packageName : String
  appName : String
  permissions : List String
  isSystemApp : Bool
  sourceDir : String
  installerPackage : Option String
  isDebuggable : Bool
  isTestOnly : Bool
  targetSdk : Int
  lastUpdateTime : Int
  serviceCount : Nat
deriving Repr, DecidableEq

/-- `inferAppCategory` (lines 168-183): first matching keyword set wins. -/
def inferAppCategory (packageName appName : String) : String :=
  let lowerPkg := toLowerStr packageName
  let lowerName := toLowerStr appName
  if CAMERA_APPS.any (fun k => strContains lowerPkg k || strContains lowerName k) then "camera"
  else if MESSAGING_APPS.any (fun k => strContains lowerPkg k || strContains lowerName k) then "messaging"
  else if SOCIAL_APPS.any (fun k => strContains lowerPkg k || strContains lowerName k) then "social"
  else if CALL_APPS.any (fun k => strContains lowerPkg k || strContains lowerName k) then "communication"
  else if LOCATION_APPS.any (fun k => strContains lowerPkg k || strContains lowerName k) then "location"
  else if strContains lowerPkg "game" || strContains lowerName "game" then "game"
  else if strContains lowerPkg "flashlight" || strContains lowerName "flashlight" then "utility"
  else if strContains lowerPkg "calculator" || strContains lowerName "calculator" then "utility"
  else "unknown"

/-- `isPermissionContextuallyAppropriate` (lines 188-198). -/
def isPermissionContextuallyAppropriate (permission category : String) : Bool :=
  if strContains permission "CAMERA" then
    ["camera", "social", "communication", "messaging"].contains category
  else if strContains permission "RECORD_AUDIO" then
    ["camera", "communication", "social"].contains category
  else if strContains permission "LOCATION" then
    ["location", "social", "communication"].contains category
  else if strContains permission "CONTACTS" then
    ["messaging", "social", "communication"].contains category
  else if strContains permission "SMS" then
    ["messaging"].contains category
  else if strContains permission "CALL_LOG" then
    ["communication"].contains category
  else true

/-- `detectSuspiciousCombos` (lines 203-243).  Returns the
`hasSuspiciousCombo` flag together with the factors it appends, in the
order the source appends them. -/
def detectSuspiciousCombos (permissions : List String) (category : String) :
    Bool × List RiskFactor :=
  let hasInternet := permissions.any (fun p => strContains p "INTERNET")
  let hasSms := permissions.any (fun p => strContains p "SMS")
  let hasContacts := permissions.any (fun p => strContains p "CONTACTS")
  let hasCallLog := permissions.any (fun p => strContains p "CALL_LOG")
  let hasCamera := permissions.any (fun p => strContains p "CAMERA")
  let hasAudio := permissions.any (fun p => strContains p "RECORD_AUDIO")
  let hasLocation := permissions.any (fun p => strContains p "LOCATION")
  let c1 := hasSms && hasInternet && !(category == "messaging")
  let c2 := hasContacts && hasSms && hasInternet && !(["messaging", "social"].contains category)
  let c3 := hasCallLog && hasSms && hasInternet && !(category == "communication")
  let c4 := hasCamera && hasAudio && hasLocation && hasContacts
              && !(["social", "communication"].contains category)
  (c1 || c2 || c3 || c4,
    (if c1 then [⟨"Suspicious Combo", "SMS + Internet access (not a messaging app)", 35⟩] else [])
    ++ (if c2 then [⟨"Suspicious Combo", "Contacts + SMS + Internet (data exfiltration pattern)", 35⟩] else [])
    ++ (if c3 then [⟨"Suspicious Combo", "Call Log + SMS + Internet (spyware pattern)", 35⟩] else [])
    ++ (if c4 then [⟨"Suspicious Combo", "Camera + Microphone + Location + Contacts (surveillance pattern)", 35⟩] else []))

/-- Body of the permission-scoring loop (lines 318-333): the points one
permission adds and the factors it appends. -/
def scorePermission (appCategory perm : String) : Nat × List RiskFactor :=
  let isAppropriate := isPermissionContextuallyAppropriate perm appCategory
  if HIGH_RISK_PERMISSIONS.contains perm then
    let points := if isAppropriate then 10 else 15
    (points,
      if isAppropriate then []
      else [⟨"Permission",
             substringAfterLast '.' perm ++ " (unusual for " ++ appCategory ++ " app)",
             points⟩])
  else if MEDIUM_RISK_PERMISSIONS.contains perm then
    (if isAppropriate then 4 else 6, [])
  else (0, [])

/-- The whole permission-scoring loop, iterated in list order. -/
def scorePermissions (appCategory : String) : List String → Nat × List RiskFactor
  | [] => (0, [])
  | perm :: rest =>
    let r := scorePermission appCategory perm
    let acc := scorePermissions appCategory rest
    (r.1 + acc.1, r.2 ++ acc.2)

/-- `isTrusted` (lines 273-275): system app, trusted publisher package
name, or privileged-partition source dir. -/
def isTrustedApp (m : AppMetadata) : Bool :=
  m.isSystemApp
  || TRUSTED_PREFIXES.any (fun p => strStartsWith m.packageName p)
  || strContains m.sourceDir "/system/priv-app"

/-- `isSideloaded` (line 290): null or empty installer package. -/
def isSideloadedOf : Option String → Bool
  | none => true
  | some s => s.isEmpty

/-- `isFromPlayStore` (line 289). -/
def isFromPlayStoreOf (installer : Option String) : Bool :=
  installer == some "com.android.vending"

/-- `isThirdPartyStore` (line 291). -/
def isThirdPartyStoreOf (installer : Option String) : Bool :=
  !isFromPlayStoreOf installer && !isSideloadedOf installer && installer.isSome

/-- `twoYearsMs` (line 301): `2L * 365 * 24 * 60 * 60 * 1000`. -/
def twoYearsMs : Int := 2 * 365 * 24 * 60 * 60 * 1000

/-- `isOutdated` (line 302). -/
def isOutdatedAt (lastUpdateTime now : Int) : Bool :=
  decide (0 < lastUpdateTime) && decide (twoYearsMs < now - lastUpdateTime)

/-- `hasOldTargetSdk` (line 303). -/
def hasOldTargetSdkOf (targetSdk : Int) : Bool :=
  decide (0 < targetSdk) && decide (targetSdk < 29)

/-- Installation-signal block (lines 342-350). -/
def installationFactors (isSideloaded isThirdPartyStore : Bool) (highRiskCount : Nat) :
    Nat × List RiskFactor :=
  if isSideloaded then
    let hasHighRiskPerms := decide (0 < highRiskCount)
    let points := if hasHighRiskPerms then 30 else 20
    (points,
      [⟨"Installation",
        "Sideloaded (not from Play Store)"
          ++ (if hasHighRiskPerms then " with high-risk permissions" else ""),
        points⟩])
  else if isThirdPartyStore then
    (15, [⟨"Installation", "Installed from third-party store", 15⟩])
  else (0, [])

/-- Build-flag block (lines 353-365): points, factors, and the
debuggable force-HIGH flag. -/
def buildFactors (isDebuggable isTestOnly isSideloaded hasSuspiciousCombo : Bool) :
    Nat × List RiskFactor × Bool :=
  ((if isDebuggable then 30 else 0) + (if isTestOnly then 25 else 0),
   (if isDebuggable then [⟨"Build", "App is debuggable (security vulnerability)", 30⟩] else [])
     ++ (if isTestOnly then [⟨"Build", "Test-only build", 25⟩] else []),
   isDebuggable && (isSideloaded || hasSuspiciousCombo))

/-- Platform/maintenance block (lines 368-376). -/
def platformFactors (hasOldTargetSdk isOutdated : Bool) (targetSdk : Int) :
    Nat × List RiskFactor :=
  ((if hasOldTargetSdk then 15 else 0) + (if isOutdated then 10 else 0),
   (if hasOldTargetSdk then
      [⟨"Platform", "Targets outdated Android (SDK " ++ toString targetSdk ++ " < 29)", 15⟩]
    else [])
     ++ (if isOutdated then [⟨"Maintenance", "Not updated in over 2 years", 10⟩] else []))

/-- Runtime/behavioral block (lines 379-399). -/
def runtimeFactors (permissions : List String) (serviceCount : Nat) :
    Nat × List RiskFactor :=
  let a := permissions.contains PERM_ACCESSIBILITY
  let o := permissions.contains PERM_OVERLAY
  let b := permissions.contains PERM_BOOT && permissions.contains PERM_INTERNET
  let s := decide (5 < serviceCount)
  ((if a then 40 else 0) + (if o then 25 else 0) + (if b then 15 else 0)
     + (if s then 10 else 0),
   (if a then [⟨"Runtime", "Uses Accessibility Service (can read screen)", 40⟩] else [])
     ++ (if o then [⟨"Runtime", "Can draw over other apps (overlay attacks)", 25⟩] else [])
     ++ (if b then [⟨"Runtime", "Auto-starts on boot with internet access", 15⟩] else [])
     ++ (if s then
           [⟨"Runtime", "Excessive background services (" ++ toString serviceCount ++ ")", 10⟩]
         else []))

/-- `highRiskCount` (line 306). -/
def highRiskCountOf (permissions : List String) : Nat :=
  permissions.countP (fun p => HIGH_RISK_PERMISSIONS.contains p)

/-- `mediumRiskCount` (line 307). -/
def mediumRiskCountOf (permissions : List String) : Nat :=
  permissions.countP (fun p => MEDIUM_RISK_PERMISSIONS.contains p)

/-- The whole untrusted branch of `analyzeAppRisk` (lines 316-399):
raw accumulated score (before the cap), factor list, and `forceHigh`.
Note the suspicious-combo block appends 35-point factors but never adds
their points to `riskScore` in the source. -/
def untrustedAnalysis (m : AppMetadata) (now : Int) : Nat × List RiskFactor × Bool :=
  let appCategory := inferAppCategory m.packageName m.appName
  let isSideloaded := isSideloadedOf m.installerPackage
  let isThirdPartyStore := isThirdPartyStoreOf m.installerPackage
  let sp := scorePermissions appCategory m.permissions
  let combo := detectSuspiciousCombos m.permissions appCategory
  let inst := installationFactors isSideloaded isThirdPartyStore (highRiskCountOf m.permissions)
  let bld := buildFactors m.isDebuggable m.isTestOnly isSideloaded combo.1
  let plat := platformFactors (hasOldTargetSdkOf m.targetSdk) (isOutdatedAt m.lastUpdateTime now)
                m.targetSdk
  let rt := runtimeFactors m.permissions m.serviceCount
  (sp.1 + inst.1 + bld.1 + plat.1 + rt.1,
   sp.2 ++ combo.2 ++ inst.2 ++ bld.2.1 ++ plat.2 ++ rt.2,
   combo.1 || bld.2.2)

/-- The result map of `analyzeAppRisk` (lines 435-460), minus the
presentation fields that need file-system access (`fileSize`) or Java
`hashCode` (`hash`), and minus the constant `fileType = "apk"`. -/
structure RiskAssessment where
  id : String
  fileName : String
  packageName : String
  riskLevel : String
  confidence : ℚ
  action : String
  permissionCount : Nat
  highRiskPerms : Nat
  mediumRiskPerms : Nat
  scannedAt : Int
  isFromPlayStore : Bool
  isSideloaded : Bool
  isDebuggable : Bool
  isTestOnly : Bool
  targetSdk : Int
  isOutdated : Bool
  riskScore : Nat
  appCategory : String
  isTrusted : Bool
  riskIndicators : List String
  riskBreakdown : List RiskFactor
deriving Repr, DecidableEq

/-- `analyzeAppRisk` (lines 248-461).  `now` is the clock read at line 300
(freshness check); `scanTime` is the clock read at line 448 (`scannedAt`). -/
def analyzeAppRisk (m : AppMetadata) (now scanTime : Int) : RiskAssessment :=
  let appCategory := inferAppCategory m.packageName m.appName
  let isTrusted := isTrustedApp m
  let isSideloaded := isSideloadedOf m.installerPackage
  let analysis :=
    if isTrusted then
      ((0 : Nat), [(⟨"Trusted", "System or verified publisher app", 0⟩ : RiskFactor)], false)
    else untrustedAnalysis m now
  let riskScore := min 100 analysis.1
  let riskLevel :=
    if isTrusted then "LOW"
    else if analysis.2.2 then "HIGH"
    else if 45 ≤ riskScore then "HIGH"
    else if 20 ≤ riskScore then "MEDIUM"
    else "LOW"
  let action :=
    if riskLevel == "HIGH" then "REVIEW"
    else if riskLevel == "MEDIUM" then "MONITOR"
    else "SAFE"
  let signalCount :=
    ([!isSideloaded, decide (0 < m.targetSdk), decide (0 < m.lastUpdateTime)] : List Bool).count
      true
  let confidence : ℚ :=
    min 0.99 (0.70 + (m.permissions.length : ℚ) * 0.01 + (signalCount : ℚ) * 0.05)
  { id := m.packageName
    fileName := m.appName
    packageName := m.packageName
    riskLevel := riskLevel
    confidence := confidence
    action := action
    permissionCount := m.permissions.length
    highRiskPerms := highRiskCountOf m.permissions
    mediumRiskPerms := mediumRiskCountOf m.permissions
    scannedAt := scanTime
    isFromPlayStore := isFromPlayStoreOf m.installerPackage
    isSideloaded := isSideloaded
    isDebuggable := m.isDebuggable
    isTestOnly := m.isTestOnly
    targetSdk := m.targetSdk
    isOutdated := isOutdatedAt m.lastUpdateTime now
    riskScore := riskScore
    appCategory := appCategory
    isTrusted := isTrusted
    riskIndicators :=
      analysis.2.1.map (fun f =>
        f.category ++ ": " ++ f.description ++ " (+" ++ toString f.points ++ ")")
    riskBreakdown := analysis.2.1 }

/-- Network-related permissions (NetworkAnalyzer companion). -/
def NETWORK_PERMISSIONS : List String :=
  [ "android.permission.INTERNET"
  , "android.permission.ACCESS_NETWORK_STATE"
  , "android.permission.ACCESS_WIFI_STATE"
  , "android.permission.CHANGE_WIFI_STATE"
  , "android.permission.CHANGE_NETWORK_STATE" ]

/-- Permissions that combined with INTERNET are risky (NetworkAnalyzer
companion). -/
def DATA_EXFIL_PERMISSIONS : List String :=
  [ "android.permission.READ_CONTACTS"
  , "android.permission.READ_SMS"
  , "android.permission.READ_CALL_LOG"
  , "android.permission.ACCESS_FINE_LOCATION"
  , "android.permission.ACCESS_COARSE_LOCATION"
  , "android.permission.READ_EXTERNAL_STORAGE"
  , "android.permission.CAMERA"
  , "android.permission.RECORD_AUDIO"
  , "android.permission.READ_PHONE_STATE" ]

/-- The result map of `NetworkAnalyzer.analyzeApp`. -/
structure NetworkResult where
  hasInternet : Bool
  networkPermissions : List String
  networkPermissionCount : Nat
  dataExfilPermissions : List String
  dataExfilPermissionCount : Nat
  exfilRiskScore : Nat
  riskLevel : String
  usesCleartext : Bool
  canAccessWifi : Bool
  canChangeNetwork : Bool
  networkCapabilities : List String
deriving Repr, DecidableEq

/-- `buildNetworkCapabilityList` (part_004 lines 108-137). -/
def buildNetworkCapabilityList (permissions : List String) : List String :=
  (if permissions.contains "android.permission.INTERNET" then ["Internet Access"] else [])
  ++ (if permissions.contains "android.permission.ACCESS_NETWORK_STATE" then
        ["Network State Monitoring"] else [])
  ++ (if permissions.contains "android.permission.ACCESS_WIFI_STATE" then
        ["WiFi State Access"] else [])
  ++ (if permissions.contains "android.permission.CHANGE_WIFI_STATE" then
        ["WiFi Control"] else [])
  ++ (if permissions.contains "android.permission.CHANGE_NETWORK_STATE" then
        ["Network Control"] else [])
  ++ (if permissions.contains "android.permission.BLUETOOTH" then ["Bluetooth Access"] else [])
  ++ (if permissions.contains "android.permission.BLUETOOTH_ADMIN" then
        ["Bluetooth Control"] else [])
  ++ (if permissions.contains "android.permission.NFC" then ["NFC Access"] else [])

/-- Success branch of `NetworkAnalyzer.analyzeApp` (part_004 lines 46-86),
given the requested-permission list and the result of the nested
`getApplicationInfo` lookup used only for the cleartext side signal. -/
def networkAnalyzeCore (permissions : List String) (appInfoLookup : Except String Int) :
    NetworkResult :=
  let hasInternet := permissions.contains "android.permission.INTERNET"
  let networkPerms := permissions.filter (fun p => NETWORK_PERMISSIONS.contains p)
  let dataExfilPerms := permissions.filter (fun p => DATA_EXFIL_PERMISSIONS.contains p)
  let exfilRiskScore :=
    if hasInternet && !dataExfilPerms.isEmpty then min 100 (dataExfilPerms.length * 20) else 0
  let riskLevel :=
    if 60 ≤ exfilRiskScore then "HIGH"
    else if 30 ≤ exfilRiskScore then "MEDIUM"
    else "LOW"
  let usesCleartext :=
    match appInfoLookup with
    | Except.ok targetSdkVersion => decide (targetSdkVersion < 28)
    | Except.error _ => false
  { hasInternet := hasInternet
    networkPermissions := networkPerms
    networkPermissionCount := networkPerms.length
    dataExfilPermissions := dataExfilPerms
    dataExfilPermissionCount := dataExfilPerms.length
    exfilRiskScore := exfilRiskScore
    riskLevel := riskLevel
    usesCleartext := usesCleartext
    canAccessWifi := permissions.contains "android.permission.ACCESS_WIFI_STATE"
    canChangeNetwork := permissions.contains "android.permission.CHANGE_NETWORK_STATE"
    networkCapabilities := buildNetworkCapabilityList permissions }

/-- `NetworkAnalyzer.analyzeApp` (part_004 lines 42-103): the
`getPackageInfo` lookup may fail, in which case the catch block returns
the fixed error map with `riskLevel = "UNKNOWN"`. -/
def networkAnalyzeApp (packageLookup : Except String (List String))
    (appInfoLookup : Except String Int) : NetworkResult :=
  match packageLookup with
  | Except.ok permissions => networkAnalyzeCore permissions appInfoLookup
  | Except.error _ =>
    { hasInternet := false
      networkPermissions := []
      networkPermissionCount := 0
      dataExfilPermissions := []
      dataExfilPermissionCount := 0
      exfilRiskScore := 0
      riskLevel := "UNKNOWN"
      usesCleartext := false
      canAccessWifi := false
      canChangeNetwork := false
      networkCapabilities := [] }

/-- One element of the list `getInstalledApps` hands to `getRecentFiles`
(part_003): the fields the JS error path spreads into its default entry. -/
structure InstalledApp where
  packageName : String
  fileName : String
  iconBase64 : String
deriving Repr, DecidableEq

/-- The fields of the native `analyzeApp` bridge result that
`getRecentFiles` copies into a success entry. -/
structure NativeAnalysis where
  id : String
  fileName : String
  packageName : String
  risk : String
  confidence : ℚ
  action : String
deriving Repr, DecidableEq

/-- One entry of the `getRecentFiles` output (presentation fields
`fileType`, `fileSize`, `hash`, `scannedAt`, `iconBase64` omitted). -/
structure RecentEntry where
  packageName : String
  fileName : String
  risk : String
  confidence : ℚ
  action : String
deriving Repr, DecidableEq

/-- Per-app body of `getRecentFiles` (part_003 lines 87-116): the native
analysis call is a fallible lookup; its failure is caught locally and
replaced by the spread-plus-defaults entry
`{...app, risk: "LOW", confidence: 0.5, action: "ALLOWED"}`. -/
def analyzeRecentApp (analyze : String → Except String NativeAnalysis)
    (app : InstalledApp) : RecentEntry :=
  match analyze app.packageName with
  | Except.ok analysis =>
    { packageName := analysis.packageName
      fileName := analysis.fileName
      risk := analysis.risk
      confidence := analysis.confidence
      action := analysis.action }
  | Except.error _ =>
    { packageName := app.packageName
      fileName := app.fileName
      risk := "LOW"
      confidence := 0.5
      action := "ALLOWED" }

/-- `getRecentFiles` (part_003 lines 80-124): `Promise.all` over the
per-app analyses; each promise is total because of the inner catch, so
the batch is the index-preserving map of `analyzeRecentApp`. -/
def getRecentFiles (analyze : String → Except String NativeAnalysis)
    (apps : List InstalledApp) : List RecentEntry :=
  apps.map (analyzeRecentApp analyze)

/-! ## Projection lemmas for `analyzeAppRisk` -/

lemma analyzeAppRisk_riskScore (m : AppMetadata) (now scanTime : Int) :
    (analyzeAppRisk m now scanTime).riskScore =
      min 100 (if isTrustedApp m then 0 else (untrustedAnalysis m now).1) := by
  by_cases h : isTrustedApp m <;> simp [analyzeAppRisk, h]

lemma analyzeAppRisk_confidence (m : AppMetadata) (now scanTime : Int) :
    (analyzeAppRisk m now scanTime).confidence =
      min 0.99 (0.70 + (m.permissions.length : ℚ) * 0.01
        + (((([!isSideloadedOf m.installerPackage, decide (0 < m.targetSdk),
               decide (0 < m.lastUpdateTime)] : List Bool).count true) : ℚ)) * 0.05) := by
  rfl

/-! ## C1: trust is a hard override -/

/-- C1.  For every `AppMetadata` for which the trust check holds
(`isSystemApp`, or a trusted vendor package-name beginning, or a
privileged-partition `sourceDir`), `analyzeAppRisk` returns
`riskLevel = "LOW"` and `riskScore = 0`, for every permission set,
provenance, build flag, platform freshness and runtime signal — trust
short-circuits the whole scoring pipeline. -/
theorem analyzeAppRisk_trusted_low (m : AppMetadata) (now scanTime : Int)
    (h : isTrustedApp m = true) :
    (analyzeAppRisk m now scanTime).riskLevel = "LOW"
    ∧ (analyzeAppRisk m now scanTime).riskScore = 0 := by
  constructor <;> simp [analyzeAppRisk, h]

def mWitnessTrusted : AppMetadata :=
  { packageName := "org.vendor.system.shell"
    appName := "Shell"
    permissions :=
      [ "android.permission.READ_SMS", "android.permission.INTERNET"
      , "android.permission.BIND_ACCESSIBILITY_SERVICE"
      , "android.permission.SYSTEM_ALERT_WINDOW", "android.permission.CAMERA"
      , "android.permission.RECORD_AUDIO", "android.permission.ACCESS_FINE_LOCATION"
      , "android.permission.READ_CONTACTS", "android.permission.READ_CALL_LOG" ]
    isSystemApp := true
    sourceDir := "/system/app/Shell.apk"
    installerPackage := none
    isDebuggable := true
    isTestOnly := true
    targetSdk := 19
    lastUpdateTime := 1
    serviceCount := 20 }

/-- Witness for C1: a system app loaded with every aggravating signal is
still LOW with score 0. -/
theorem analyzeAppRisk_trusted_low_witness :
    (analyzeAppRisk mWitnessTrusted 100000000000000 0).riskLevel = "LOW"
    ∧ (analyzeAppRisk mWitnessTrusted 100000000000000 0).riskScore = 0 :=
  analyzeAppRisk_trusted_low mWitnessTrusted 100000000000000 0 (by decide)

/-! ## C2: clamping invariants -/

/-- C2.  For every input the returned `riskScore` lies in `[0, 100]` and
the returned `confidence` lies in `[0.70, 0.99]`. -/
theorem analyzeAppRisk_clamped (m : AppMetadata) (now scanTime : Int) :
    0 ≤ (analyzeAppRisk m now scanTime).riskScore
    ∧ (analyzeAppRisk m now scanTime).riskScore ≤ 100
    ∧ (0.70 : ℚ) ≤ (analyzeAppRisk m now scanTime).confidence
    ∧ (analyzeAppRisk m now scanTime).confidence ≤ 0.99 := by
  refine ⟨Nat.zero_le _, ?_, ?_, ?_⟩
  · rw [analyzeAppRisk_riskScore]
    exact min_le_left _ _
  · rw [analyzeAppRisk_confidence]
    refine le_min (by norm_num) ?_
    have h1 : (0 : ℚ) ≤ (m.permissions.length : ℚ) * 0.01 := by positivity
    have h2 : (0 : ℚ) ≤
        (((([!isSideloadedOf m.installerPackage, decide (0 < m.targetSdk),
             decide (0 < m.lastUpdateTime)] : List Bool).count true) : ℚ)) * 0.05 := by
      positivity
    linarith
  · rw [analyzeAppRisk_confidence]
    exact min_le_left _ _

/-! ## C3: suspicious combos force HIGH -/

lemma analyzeAppRisk_riskLevel_untrusted (m : AppMetadata) (now scanTime : Int)
    (h : isTrustedApp m = false) :
    (analyzeAppRisk m now scanTime).riskLevel =
      if (untrustedAnalysis m now).2.2 then "HIGH"
      else if 45 ≤ min 100 (untrustedAnalysis m now).1 then "HIGH"
      else if 20 ≤ min 100 (untrustedAnalysis m now).1 then "MEDIUM"
      else "LOW" := by
  simp [analyzeAppRisk, h]

lemma untrustedAnalysis_forceHigh (m : AppMetadata) (now : Int) :
    (untrustedAnalysis m now).2.2 =
      ((detectSuspiciousCombos m.permissions (inferAppCategory m.packageName m.appName)).1
        || (m.isDebuggable
             && (isSideloadedOf m.installerPackage
                  || (detectSuspiciousCombos m.permissions
                        (inferAppCategory m.packageName m.appName)).1))) := by
  simp [untrustedAnalysis, buildFactors]

/-- C3.  For every untrusted app, a triggered suspicious-combination
detector forces `riskLevel = "HIGH"` whatever the accumulated score; in
particular a permission containing `"SMS"` together with one containing
`"INTERNET"` under inferred category `"unknown"` always yields HIGH. -/
theorem analyzeAppRisk_combo_forces_high (m : AppMetadata) (now scanTime : Int)
    (hu : isTrustedApp m = false) :
    ((detectSuspiciousCombos m.permissions (inferAppCategory m.packageName m.appName)).1 = true →
      (analyzeAppRisk m now scanTime).riskLevel = "HIGH")
    ∧ (m.permissions.any (fun p => strContains p "SMS") = true →
       m.permissions.any (fun p => strContains p "INTERNET") = true →
       inferAppCategory m.packageName m.appName = "unknown" →
       (analyzeAppRisk m now scanTime).riskLevel = "HIGH") := by
  have hlvl := analyzeAppRisk_riskLevel_untrusted m now scanTime hu
  constructor
  · intro hc
    rw [hlvl, untrustedAnalysis_forceHigh, hc]
    simp
  · intro hsms hint hcat
    have hc : (detectSuspiciousCombos m.permissions
        (inferAppCategory m.packageName m.appName)).1 = true := by
      rw [hcat]
      simp [detectSuspiciousCombos, hsms, hint]
    rw [hlvl, untrustedAnalysis_forceHigh, hc]
    simp

def mWitnessCombo : AppMetadata :=
  { packageName := "com.evil.app"
    appName := "Evil"
    permissions := ["android.permission.READ_SMS", "android.permission.INTERNET"]
    isSystemApp := false
    sourceDir := "/data/app/com.evil.app/base.apk"
    installerPackage := some "com.android.vending"
    isDebuggable := false
    isTestOnly := false
    targetSdk := 33
    lastUpdateTime := 0
    serviceCount := 0 }

/-- Witness for C3: SMS + Internet, category unknown, raw score 19 < 45,
still HIGH. -/
theorem analyzeAppRisk_combo_forces_high_witness :
    (analyzeAppRisk mWitnessCombo 0 0).riskLevel = "HIGH" :=
  (analyzeAppRisk_combo_forces_high mWitnessCombo 0 0 (by decide)).2
    (by decide) (by decide) (by decide)

/-! ## C4: per-permission scoring and factor surfacing -/

lemma medium_not_high :
    ∀ p ∈ MEDIUM_RISK_PERMISSIONS, p ∉ HIGH_RISK_PERMISSIONS := by
  decide

/-- Every permission in the fixed MEDIUM list falls through all the
substring guards of the appropriateness table, so it is appropriate for
every category. -/
lemma medium_always_appropriate :
    ∀ p ∈ MEDIUM_RISK_PERMISSIONS, ∀ category,
      isPermissionContextuallyAppropriate p category = true := by
  intro p hp category
  fin_cases hp <;> rfl

/-- C4.  For every category and requested permission: a HIGH-tier
permission adds 10 points if contextually appropriate else 15, a
MEDIUM-tier permission adds 4 if appropriate else 6, and the scoring loop
appends a `RiskFactor` for the permission exactly when it was
contextually inappropriate (appropriate permissions are scored silently). -/
theorem scorePermission_points_and_factors (appCategory perm : String)
    (h : perm ∈ HIGH_RISK_PERMISSIONS ∨ perm ∈ MEDIUM_RISK_PERMISSIONS) :
    (perm ∈ HIGH_RISK_PERMISSIONS →
      scorePermission appCategory perm =
        ((if isPermissionContextuallyAppropriate perm appCategory then 10 else 15),
         if isPermissionContextuallyAppropriate perm appCategory then []
         else [⟨"Permission",
                substringAfterLast '.' perm ++ " (unusual for " ++ appCategory ++ " app)",
                if isPermissionContextuallyAppropriate perm appCategory then 10 else 15⟩]))
    ∧ (perm ∈ MEDIUM_RISK_PERMISSIONS →
        scorePermission appCategory perm =
          ((if isPermissionContextuallyAppropriate perm appCategory then 4 else 6), []))
    ∧ ((scorePermission appCategory perm).2 ≠ [] ↔
        isPermissionContextuallyAppropriate perm appCategory = false) := by
  refine ⟨?_, ?_, ?_⟩
  · intro hh
    by_cases ha : isPermissionContextuallyAppropriate perm appCategory <;>
      simp [scorePermission, hh, ha]
  · intro hm
    have hnh : perm ∉ HIGH_RISK_PERMISSIONS := medium_not_high perm hm
    have happ : isPermissionContextuallyAppropriate perm appCategory = true :=
      medium_always_appropriate perm hm appCategory
    simp [scorePermission, hm, hnh, happ]
  · rcases h with hh | hm
    · by_cases ha : isPermissionContextuallyAppropriate perm appCategory <;>
        simp [scorePermission, hh, ha]
    · have hnh : perm ∉ HIGH_RISK_PERMISSIONS := medium_not_high perm hm
      have happ : isPermissionContextuallyAppropriate perm appCategory = true :=
        medium_always_appropriate perm hm appCategory
      simp [scorePermission, hm, hnh, happ]

/-- Witness for C4, at the HIGH-tier permission `READ_SMS` and category
`"unknown"` (where it is contextually inappropriate). -/
theorem scorePermission_points_and_factors_witness :
    scorePermission "unknown" "android.permission.READ_SMS" = (15,
      [⟨"Permission", "READ_SMS (unusual for unknown app)", 15⟩])
    ∧ ((scorePermission "unknown" "android.permission.READ_SMS").2 ≠ [] ↔
        isPermissionContextuallyAppropriate "android.permission.READ_SMS" "unknown" = false) := by
  have h := scorePermission_points_and_factors "unknown" "android.permission.READ_SMS"
    (Or.inl (by decide))
  refine ⟨?_, h.2.2⟩
  have h1 := h.1 (by decide)
  simpa using h1

/-! ## C5: adding a HIGH-tier permission never lowers the score -/

lemma untrustedAnalysis_score (m : AppMetadata) (now : Int) :
    (untrustedAnalysis m now).1 =
      (scorePermissions (inferAppCategory m.packageName m.appName) m.permissions).1
      + (installationFactors (isSideloadedOf m.installerPackage)
          (isThirdPartyStoreOf m.installerPackage) (highRiskCountOf m.permissions)).1
      + (buildFactors m.isDebuggable m.isTestOnly (isSideloadedOf m.installerPackage)
          (detectSuspiciousCombos m.permissions
            (inferAppCategory m.packageName m.appName)).1).1
      + (platformFactors (hasOldTargetSdkOf m.targetSdk)
          (isOutdatedAt m.lastUpdateTime now) m.targetSdk).1
      + (runtimeFactors m.permissions m.serviceCount).1 := rfl

lemma buildFactors_score (d t s c : Bool) :
    (buildFactors d t s c).1 = (if d then 30 else 0) + (if t then 25 else 0) := rfl

lemma scorePermissions_cons (appCategory p : String) (l : List String) :
    (scorePermissions appCategory (p :: l)).1 =
      (scorePermission appCategory p).1 + (scorePermissions appCategory l).1 := rfl

lemma highRiskCountOf_cons_le (p : String) (l : List String) :
    highRiskCountOf l ≤ highRiskCountOf (p :: l) := by
  unfold highRiskCountOf
  rw [List.countP_cons]
  exact Nat.le_add_right _ _

lemma installationFactors_mono (sl tp : Bool) {c d : Nat} (h : c ≤ d) :
    (installationFactors sl tp c).1 ≤ (installationFactors sl tp d).1 := by
  cases sl
  · rfl
  · by_cases h1 : 0 < c
    · have h2 : 0 < d := lt_of_lt_of_le h1 h
      simp [installationFactors, h1, h2]
    · by_cases h2 : 0 < d <;> simp [installationFactors, h1, h2]

lemma cond_mono_ite {b c : Bool} (h : b = true → c = true) (k : Nat) :
    (if b then k else 0) ≤ (if c then k else 0) := by
  cases b
  · cases c <;> simp
  · simp [h rfl]

lemma contains_cons_of {l : List String} {x : String} (p : String)
    (h : l.contains x = true) : (p :: l).contains x = true := by
  have hx : x ∈ l := by simpa using h
  simpa using List.mem_cons_of_mem p hx

lemma runtimeFactors_cons_le (p : String) (l : List String) (sc : Nat) :
    (runtimeFactors l sc).1 ≤ (runtimeFactors (p :: l) sc).1 := by
  simp only [runtimeFactors]
  refine Nat.add_le_add (Nat.add_le_add (Nat.add_le_add ?_ ?_) ?_) (le_refl _)
  · exact cond_mono_ite (contains_cons_of p) _
  · exact cond_mono_ite (contains_cons_of p) _
  · refine cond_mono_ite ?_ _
    intro h
    have h1 := (Bool.and_eq_true _ _).mp h
    exact (Bool.and_eq_true _ _).mpr ⟨contains_cons_of p h1.1, contains_cons_of p h1.2⟩

lemma untrustedAnalysis_score_cons (m : AppMetadata) (p : String) (now : Int) :
    (untrustedAnalysis m now).1 ≤
      (untrustedAnalysis {m with permissions := p :: m.permissions} now).1 := by
  rw [untrustedAnalysis_score, untrustedAnalysis_score]
  refine Nat.add_le_add (Nat.add_le_add (Nat.add_le_add (Nat.add_le_add ?_ ?_) ?_) ?_) ?_
  · rw [scorePermissions_cons]
    exact Nat.le_add_left _ _
  · exact installationFactors_mono _ _ (highRiskCountOf_cons_le p m.permissions)
  · rw [buildFactors_score, buildFactors_score]
  · exact le_refl _
  · exact runtimeFactors_cons_le p m.permissions m.serviceCount

/-- C5.  For every untrusted app and HIGH-tier permission `p` not yet
requested, adding `p` to the permission set never decreases the returned
`riskScore` (all other metadata held fixed). -/
theorem analyzeAppRisk_high_perm_monotone (m : AppMetadata) (p : String) (now scanTime : Int)
    (hu : isTrustedApp m = false) (_hp : p ∈ HIGH_RISK_PERMISSIONS)
    (_hnew : p ∉ m.permissions) :
    (analyzeAppRisk m now scanTime).riskScore ≤
      (analyzeAppRisk {m with permissions := p :: m.permissions} now scanTime).riskScore := by
  have hu2 : isTrustedApp {m with permissions := p :: m.permissions} = false := hu
  rw [analyzeAppRisk_riskScore, analyzeAppRisk_riskScore, hu, hu2]
  simp only [if_neg (Bool.false_ne_true)]
  exact min_le_min (le_refl 100) (untrustedAnalysis_score_cons m p now)

def mWitnessMono : AppMetadata :=
  { packageName := "com.evil.app"
    appName := "Evil"
    permissions := ["android.permission.READ_SMS", "android.permission.INTERNET"]
    isSystemApp := false
    sourceDir := "/data/app/com.evil.app/base.apk"
    installerPackage := none
    isDebuggable := false
    isTestOnly := false
    targetSdk := 33
    lastUpdateTime := 0
    serviceCount := 0 }

/-- Witness for C5 at the HIGH-tier permission `CAMERA`. -/
theorem analyzeAppRisk_high_perm_monotone_witness :
    (analyzeAppRisk mWitnessMono 0 0).riskScore ≤
      (analyzeAppRisk
        {mWitnessMono with
          permissions := "android.permission.CAMERA" :: mWitnessMono.permissions} 0 0).riskScore :=
  analyzeAppRisk_high_perm_monotone mWitnessMono "android.permission.CAMERA" 0 0
    (by decide) (by decide) (by decide)

/-! ## C6: per-app failure recovery in the batch aggregator -/

/-- C6.  When the native analysis lookup fails for one app, the batch is
not aborted: the output still has one entry per input app, the failing
app gets the default `LOW` / `0.5` / `"ALLOWED"` entry, and every app
whose analysis succeeds gets its analyzed entry. -/
theorem getRecentFiles_error_defaults (analyze : String → Except String NativeAnalysis)
    (apps : List InstalledApp) (i : Nat) (app : InstalledApp) (err : String)
    (hidx : apps[i]? = some app)
    (hfail : analyze app.packageName = Except.error err) :
    (getRecentFiles analyze apps).length = apps.length
    ∧ (getRecentFiles analyze apps)[i]? =
        some { packageName := app.packageName, fileName := app.fileName,
               risk := "LOW", confidence := 0.5, action := "ALLOWED" }
    ∧ ∀ (j : Nat) (app2 : InstalledApp) (r : NativeAnalysis),
        apps[j]? = some app2 → analyze app2.packageName = Except.ok r →
        (getRecentFiles analyze apps)[j]? =
          some { packageName := r.packageName, fileName := r.fileName,
                 risk := r.risk, confidence := r.confidence, action := r.action } := by
  refine ⟨by simp [getRecentFiles], ?_, ?_⟩
  · rw [getRecentFiles, List.getElem?_map, hidx]
    simp [analyzeRecentApp, hfail]
  · intro j app2 r hj hok
    rw [getRecentFiles, List.getElem?_map, hj]
    simp [analyzeRecentApp, hok]

def appsW6 : List InstalledApp :=
  [ { packageName := "com.gone.app", fileName := "Gone", iconBase64 := "" }
  , { packageName := "com.ok.app", fileName := "Ok", iconBase64 := "" } ]

def analysisW6 : NativeAnalysis :=
  { id := "com.ok.app", fileName := "Ok", packageName := "com.ok.app"
    risk := "MEDIUM", confidence := 0.77, action := "MONITOR" }

def analyzeW6 : String → Except String NativeAnalysis := fun s =>
  if s == "com.gone.app" then Except.error "uninstalled" else Except.ok analysisW6

/-- Witness for C6: app 0 fails, app 1 succeeds. -/
theorem getRecentFiles_error_defaults_witness :
    (getRecentFiles analyzeW6 appsW6).length = appsW6.length
    ∧ (getRecentFiles analyzeW6 appsW6)[0]? =
        some { packageName := "com.gone.app", fileName := "Gone",
               risk := "LOW", confidence := 0.5, action := "ALLOWED" }
    ∧ ∀ (j : Nat) (app2 : InstalledApp) (r : NativeAnalysis),
        appsW6[j]? = some app2 → analyzeW6 app2.packageName = Except.ok r →
        (getRecentFiles analyzeW6 appsW6)[j]? =
          some { packageName := r.packageName, fileName := r.fileName,
                 risk := r.risk, confidence := r.confidence, action := r.action } :=
  getRecentFiles_error_defaults analyzeW6 appsW6 0
    { packageName := "com.gone.app", fileName := "Gone", iconBase64 := "" }
    "uninstalled" (by rfl) (by rfl)

/-! ## C7: no hidden time dependence (corrected) -/

def mWitnessTime : AppMetadata :=
  { packageName := "com.some.app"
    appName := "Some"
    permissions := ["android.permission.INTERNET"]
    isSystemApp := false
    sourceDir := "/data/app/com.some.app/base.apk"
    installerPackage := some "com.android.vending"
    isDebuggable := false
    isTestOnly := false
    targetSdk := 33
    lastUpdateTime := 10
    serviceCount := 0 }

/-- Counterexample for C7 as stated: with identical metadata and the same
explicitly passed `now`, two calls whose second (hidden) clock read —
the one taken at line 448 for `scannedAt` — differs produce different
result maps, so the output is not a function of the input and `now`
alone. -/
theorem analyzeAppRisk_not_time_independent :
    analyzeAppRisk mWitnessTime 0 0 ≠ analyzeAppRisk mWitnessTime 0 1 := by
  intro h
  have h2 : (0 : Int) = 1 := congrArg RiskAssessment.scannedAt h
  exact absurd h2 (by decide)

/-- The result map with the `scannedAt` echo removed. -/
def eraseScannedAt (r : RiskAssessment) : RiskAssessment :=
  { r with scannedAt := 0 }

/-- C7 amended.  Apart from the `scannedAt` field — which echoes a second
`System.currentTimeMillis()` read taken while the result map is being
assembled — the assessment is a pure function of the metadata record and
the explicitly passed `now`: two calls with identical input and `now`
agree on every other field, whatever the second clock read returns. -/
theorem analyzeAppRisk_deterministic_except_scannedAt (m : AppMetadata)
    (now t1 t2 : Int) :
    eraseScannedAt (analyzeAppRisk m now t1) = eraseScannedAt (analyzeAppRisk m now t2) := rfl

/-! ## C8: network exfiltration score and level thresholds -/

/-- C8.  For every permission list: with the Internet permission present
the exfiltration score is `min(100, 20 × n)` where `n` is the number of
data-exfiltration permissions present; without it the score is `0`; and
the network risk level is HIGH iff the score is at least 60, MEDIUM iff
it is in `[30, 60)`, and LOW iff it is below 30. -/
theorem networkAnalyzeCore_exfil_score_level (permissions : List String)
    (appInfoLookup : Except String Int) :
    ((networkAnalyzeCore permissions appInfoLookup).hasInternet = true →
      (networkAnalyzeCore permissions appInfoLookup).exfilRiskScore =
        min 100 (20 * (permissions.filter (fun p => DATA_EXFIL_PERMISSIONS.contains p)).length))
    ∧ ((networkAnalyzeCore permissions appInfoLookup).hasInternet = false →
        (networkAnalyzeCore permissions appInfoLookup).exfilRiskScore = 0)
    ∧ ((networkAnalyzeCore permissions appInfoLookup).riskLevel = "HIGH" ↔
        60 ≤ (networkAnalyzeCore permissions appInfoLookup).exfilRiskScore)
    ∧ ((networkAnalyzeCore permissions appInfoLookup).riskLevel = "MEDIUM" ↔
        (30 ≤ (networkAnalyzeCore permissions appInfoLookup).exfilRiskScore
          ∧ (networkAnalyzeCore permissions appInfoLookup).exfilRiskScore < 60))
    ∧ ((networkAnalyzeCore permissions appInfoLookup).riskLevel = "LOW" ↔
        (networkAnalyzeCore permissions appInfoLookup).exfilRiskScore < 30) := by
  have hlevel : (networkAnalyzeCore permissions appInfoLookup).riskLevel =
      (if 60 ≤ (networkAnalyzeCore permissions appInfoLookup).exfilRiskScore then "HIGH"
       else if 30 ≤ (networkAnalyzeCore permissions appInfoLookup).exfilRiskScore then "MEDIUM"
       else "LOW") := rfl
  refine ⟨?_, ?_, ?_, ?_, ?_⟩
  · intro h
    have hI : permissions.contains "android.permission.INTERNET" = true := h
    by_cases he : (permissions.filter (fun p => DATA_EXFIL_PERMISSIONS.contains p)).isEmpty
    · have hn : (permissions.filter (fun p => DATA_EXFIL_PERMISSIONS.contains p)) = [] :=
        List.isEmpty_iff.mp he
      show (if permissions.contains "android.permission.INTERNET"
              && !(permissions.filter (fun p => DATA_EXFIL_PERMISSIONS.contains p)).isEmpty
            then min 100 ((permissions.filter
                (fun p => DATA_EXFIL_PERMISSIONS.contains p)).length * 20)
            else 0) = _
      rw [hn]
      simp
    · have he2 : (!(permissions.filter (fun p => DATA_EXFIL_PERMISSIONS.contains p)).isEmpty)
          = true := by
        simpa using he
      show (if permissions.contains "android.permission.INTERNET"
              && !(permissions.filter (fun p => DATA_EXFIL_PERMISSIONS.contains p)).isEmpty
            then min 100 ((permissions.filter
                (fun p => DATA_EXFIL_PERMISSIONS.contains p)).length * 20)
            else 0) = _
    
      rw [hI, he2]
      simp [Nat.mul_comm]
  · intro h
    have hI : permissions.contains "android.permission.INTERNET" = false := h
    show (if permissions.contains "android.permission.INTERNET"
            && !(permissions.filter (fun p => DATA_EXFIL_PERMISSIONS.contains p)).isEmpty
          then min 100 ((permissions.filter
              (fun p => DATA_EXFIL_PERMISSIONS.contains p)).length * 20)
          else 0) = 0
    rw [hI]
    simp
  · rw [hlevel]
    by_cases h60 : 60 ≤ (networkAnalyzeCore permissions appInfoLookup).exfilRiskScore
    · simp [h60]
    · by_cases h30 : 30 ≤ (networkAnalyzeCore permissions appInfoLookup).exfilRiskScore <;>
        simp [h60, h30]
  · rw [hlevel]
    by_cases h60 : 60 ≤ (networkAnalyzeCore permissions appInfoLookup).exfilRiskScore
    · simp [h60]
    · by_cases h30 : 30 ≤ (networkAnalyzeCore permissions appInfoLookup).exfilRiskScore <;>
        simp [h60, h30]
      omega
  · rw [hlevel]
    by_cases h60 : 60 ≤ (networkAnalyzeCore permissions appInfoLookup).exfilRiskScore
    · simp [h60]
      omega
    · by_cases h30 : 30 ≤ (networkAnalyzeCore permissions appInfoLookup).exfilRiskScore <;>
        simp [h60, h30]
      omega

def permsW8 : List String :=
  [ "android.permission.INTERNET", "android.permission.READ_SMS"
  , "android.permission.RECORD_AUDIO" ]

/-- Witness for C8: Internet plus two exfiltration permissions gives
score 40 = min(100, 20×2) and level MEDIUM. -/
theorem networkAnalyzeCore_exfil_score_level_witness :
    (networkAnalyzeCore permsW8 (Except.ok 33)).exfilRiskScore =
      min 100 (20 * ((permsW8.filter (fun p => DATA_EXFIL_PERMISSIONS.contains p)).length))
    ∧ ((networkAnalyzeCore permsW8 (Except.ok 33)).riskLevel = "MEDIUM" ↔
        (30 ≤ (networkAnalyzeCore permsW8 (Except.ok 33)).exfilRiskScore
          ∧ (networkAnalyzeCore permsW8 (Except.ok 33)).exfilRiskScore < 60)) :=
  ⟨(networkAnalyzeCore_exfil_score_level permsW8 (Except.ok 33)).1 (by decide),
   (networkAnalyzeCore_exfil_score_level permsW8 (Except.ok 33)).2.2.2.1⟩

/-! ## C9: the network analyzer's error vocabulary -/

/-- C9.  When the package lookup fails, `NetworkAnalyzer.analyzeApp`
returns `riskLevel = "UNKNOWN"` — a value outside the LOW/MEDIUM/HIGH
vocabulary — with `hasInternet = false`, `exfilRiskScore = 0` and empty
permission and capability lists. -/
theorem networkAnalyzeApp_error_unknown (err : String) (appInfoLookup : Except String Int) :
    (networkAnalyzeApp (Except.error err) appInfoLookup).riskLevel = "UNKNOWN"
    ∧ (["LOW", "MEDIUM", "HIGH"].contains
        (networkAnalyzeApp (Except.error err) appInfoLookup).riskLevel) = false
    ∧ (networkAnalyzeApp (Except.error err) appInfoLookup).hasInternet = false
    ∧ (networkAnalyzeApp (Except.error err) appInfoLookup).exfilRiskScore = 0
    ∧ (networkAnalyzeApp (Except.error err) appInfoLookup).networkPermissions = []
    ∧ (networkAnalyzeApp (Except.error err) appInfoLookup).dataExfilPermissions = []
    ∧ (networkAnalyzeApp (Except.error err) appInfoLookup).networkCapabilities = [] :=
  ⟨rfl, rfl, rfl, rfl, rfl, rfl, rfl⟩

/-! ## C10: substring matching in the combo detector vs exact catalog lookup -/

/-- C10.  The suspicious-combination detector tests every pattern by
substring containment (`"SMS"`, `"INTERNET"`, `"CONTACTS"`, `"CALL_LOG"`,
`"CAMERA"`, `"RECORD_AUDIO"`, `"LOCATION"`) over every permission string,
not by catalog membership: for every permission set, permissions merely
containing the substrings of a pattern satisfy that pattern condition and
trigger the detector — pattern 1 (SMS+Internet, category not messaging),
pattern 2 (Contacts+SMS+Internet, category outside messaging/social),
pattern 3 (CallLog+SMS+Internet, category not communication), pattern 4
(Camera+Audio+Location+Contacts, category outside social/communication) —
while the per-permission tier scoring uses exact membership in the fixed
HIGH/MEDIUM lists, giving such identifiers zero points and no factor. -/
theorem combo_substring_vs_catalog (perms : List String) (category : String) :
    (∀ p ∈ perms, ∀ q ∈ perms,
        strContains p "SMS" = true → strContains q "INTERNET" = true →
        category ≠ "messaging" →
        (detectSuspiciousCombos perms category).1 = true)
    ∧ (∀ p ∈ perms, ∀ q ∈ perms, ∀ r ∈ perms,
        strContains p "CONTACTS" = true → strContains q "SMS" = true →
        strContains r "INTERNET" = true →
        category ≠ "messaging" → category ≠ "social" →
        (detectSuspiciousCombos perms category).1 = true)
    ∧ (∀ p ∈ perms, ∀ q ∈ perms, ∀ r ∈ perms,
        strContains p "CALL_LOG" = true → strContains q "SMS" = true →
        strContains r "INTERNET" = true →
        category ≠ "communication" →
        (detectSuspiciousCombos perms category).1 = true)
    ∧ (∀ p ∈ perms, ∀ q ∈ perms, ∀ r ∈ perms, ∀ w ∈ perms,
        strContains p "CAMERA" = true → strContains q "RECORD_AUDIO" = true →
        strContains r "LOCATION" = true → strContains w "CONTACTS" = true →
        category ≠ "social" → category ≠ "communication" →
        (detectSuspiciousCombos perms category).1 = true)
    ∧ (∀ p : String, p ∉ HIGH_RISK_PERMISSIONS → p ∉ MEDIUM_RISK_PERMISSIONS →
        scorePermission category p = (0, [])) := by
  refine ⟨?_, ?_, ?_, ?_, ?_⟩
  · intro p hp q hq hpS hqI hcat
    have hsms : perms.any (fun x => strContains x "SMS") = true :=
      List.any_eq_true.mpr ⟨p, hp, hpS⟩
    have hnet : perms.any (fun x => strContains x "INTERNET") = true :=
      List.any_eq_true.mpr ⟨q, hq, hqI⟩
    have hbe : (category == "messaging") = false := by
      simpa using hcat
    simp [detectSuspiciousCombos, hsms, hnet, hbe]
  · intro p hp q hq r hr hpC hqS hrI hm hs
    have hcon : perms.any (fun x => strContains x "CONTACTS") = true :=
      List.any_eq_true.mpr ⟨p, hp, hpC⟩
    have hsms : perms.any (fun x => strContains x "SMS") = true :=
      List.any_eq_true.mpr ⟨q, hq, hqS⟩
    have hnet : perms.any (fun x => strContains x "INTERNET") = true :=
      List.any_eq_true.mpr ⟨r, hr, hrI⟩
    have hbe1 : (category == "messaging") = false := by
      simpa using hm
    have hbe2 : (category == "social") = false := by
      simpa using hs
    simp [detectSuspiciousCombos, hcon, hsms, hnet, hbe1, hbe2, hm, hs]
  · intro p hp q hq r hr hpL hqS hrI hcat
    have hcall : perms.any (fun x => strContains x "CALL_LOG") = true :=
      List.any_eq_true.mpr ⟨p, hp, hpL⟩
    have hsms : perms.any (fun x => strContains x "SMS") = true :=
      List.any_eq_true.mpr ⟨q, hq, hqS⟩
    have hnet : perms.any (fun x => strContains x "INTERNET") = true :=
      List.any_eq_true.mpr ⟨r, hr, hrI⟩
    have hbe : (category == "communication") = false := by
      simpa using hcat
    simp [detectSuspiciousCombos, hcall, hsms, hnet, hbe]
  · intro p hp q hq r hr w hw hpCam hqAud hrLoc hwCon hsoc hcom
    have hcam : perms.any (fun x => strContains x "CAMERA") = true :=
      List.any_eq_true.mpr ⟨p, hp, hpCam⟩
    have haud : perms.any (fun x => strContains x "RECORD_AUDIO") = true :=
      List.any_eq_true.mpr ⟨q, hq, hqAud⟩
    have hloc : perms.any (fun x => strContains x "LOCATION") = true :=
      List.any_eq_true.mpr ⟨r, hr, hrLoc⟩
    have hcon : perms.any (fun x => strContains x "CONTACTS") = true :=
      List.any_eq_true.mpr ⟨w, hw, hwCon⟩
    have hbe1 : (category == "social") = false := by
      simpa using hsoc
    have hbe2 : (category == "communication") = false := by
      simpa using hcom
    simp [detectSuspiciousCombos, hcam, haud, hloc, hcon, hbe1, hbe2, hsoc, hcom]
  · intro p h1 h2
    simp [scorePermission, h1, h2]

def permsW10a : List String := ["com.vendor.TEST_SMS", "com.vendor.NET_INTERNET"]

def permsW10b : List String :=
  ["com.vendor.ADDR_CONTACTS", "com.vendor.TEST_SMS", "com.vendor.NET_INTERNET"]

def permsW10c : List String :=
  ["com.vendor.HIST_CALL_LOG", "com.vendor.TEST_SMS", "com.vendor.NET_INTERNET"]

def permsW10d : List String :=
  [ "com.vendor.PIC_CAMERA", "com.vendor.MIC_RECORD_AUDIO"
  , "com.vendor.GEO_LOCATION", "com.vendor.ADDR_CONTACTS" ]

/-- Witness for C10: vendor permissions outside the catalog, merely
containing the pattern substrings, trigger each of the four patterns
while scoring zero points individually. -/
theorem combo_substring_vs_catalog_witness :
    (detectSuspiciousCombos permsW10a "unknown").1 = true
    ∧ (detectSuspiciousCombos permsW10b "unknown").1 = true
    ∧ (detectSuspiciousCombos permsW10c "unknown").1 = true
    ∧ (detectSuspiciousCombos permsW10d "unknown").1 = true
    ∧ scorePermission "unknown" "com.vendor.TEST_SMS" = (0, []) :=
  ⟨(combo_substring_vs_catalog permsW10a "unknown").1
      "com.vendor.TEST_SMS" (by decide) "com.vendor.NET_INTERNET" (by decide)
      (by decide) (by decide) (by decide),
   (combo_substring_vs_catalog permsW10b "unknown").2.1
      "com.vendor.ADDR_CONTACTS" (by decide) "com.vendor.TEST_SMS" (by decide)
      "com.vendor.NET_INTERNET" (by decide)
      (by decide) (by decide) (by decide) (by decide) (by decide),
   (combo_substring_vs_catalog permsW10c "unknown").2.2.1
      "com.vendor.HIST_CALL_LOG" (by decide) "com.vendor.TEST_SMS" (by decide)
      "com.vendor.NET_INTERNET" (by decide)
      (by decide) (by decide) (by decide) (by decide),
   (combo_substring_vs_catalog permsW10d "unknown").2.2.2.1
      "com.vendor.PIC_CAMERA" (by decide) "com.vendor.MIC_RECORD_AUDIO" (by decide)
      "com.vendor.GEO_LOCATION" (by decide) "com.vendor.ADDR_CONTACTS" (by decide)
      (by decide) (by decide) (by decide) (by decide) (by decide) (by decide),
   (combo_substring_vs_catalog permsW10a "unknown").2.2.2.2
      "com.vendor.TEST_SMS" (by decide) (by decide)⟩
